import Mathlib

/-!
Verification development for the auto-tube repository.

The frontend service layer (`src/frontend/src/services/projects.ts`) is
embedded directly.  The pipeline components (TrendScorer,
DuplicateDetector, QualityGate, StageRunner, JobOrchestrator) have no
implementation under the repository tree; where they are needed they are
modelled from the specification, except for the trend-score formula,
which the repository records verbatim in
`src/frontend/src/types/project.ts` (lines 431-437).
-/

namespace AutoTube

/-- The `Audience` union type from `src/frontend/src/types/project.ts`. -/
inductive Audience
| entry
| experienced
| investor
deriving DecidableEq, Repr

/-- The `Duration` union type from `src/frontend/src/types/project.ts`. -/
inductive VideoDuration
| short
| standard
| long
deriving DecidableEq, Repr

/-- The `Tone` union type from `src/frontend/src/types/project.ts`. -/
inductive Tone
| trust
| energetic
| premium
deriving DecidableEq, Repr

/-- Structure `ScriptSection` from `src/frontend/src/types/project.ts`. -/
structure ScriptSection where
  title : String
  body : String
deriving DecidableEq, Repr

/-- Structure `SceneOutline` from `src/frontend/src/types/project.ts`. -/
structure SceneOutline where
  cue : String
  description : String
deriving DecidableEq, Repr

/-- Structure `ProjectApiResponse` (snake_case wire form) from
`src/frontend/src/types/project.ts`. -/
structure ProjectApiResponse where
  id : String
  title : String
  location : String
  highlight : String
  audience : Audience
  duration : VideoDuration
  tone : Tone
  call_to_action : String
  created_at : String
  summary : String
  sections : List ScriptSection
  scenes : List SceneOutline
deriving DecidableEq, Repr

/-- Structure `ProjectResponse` (camelCase client form) from
`src/frontend/src/types/project.ts`. -/
structure ProjectResponse where
  id : String
  title : String
  location : String
  highlight : String
  audience : Audience
  duration : VideoDuration
  callToAction : String
  tone : Tone
  createdAt : String
  summary : String
  sections : List ScriptSection
  scenes : List SceneOutline
deriving DecidableEq, Repr

/-- Function `mapProjectResponse` from `src/frontend/src/services/projects.ts`
lines 89-104: field-by-field copy with `call_to_action ↦ callToAction`
and `created_at ↦ createdAt`. -/
def mapProjectResponse (data : ProjectApiResponse) : ProjectResponse :=
  { id := data.id
    title := data.title
    location := data.location
    highlight := data.highlight
    audience := data.audience
    duration := data.duration
    tone := data.tone
    callToAction := data.call_to_action
    createdAt := data.created_at
    summary := data.summary
    sections := data.sections
    scenes := data.scenes }

/-- JSON values as produced by `response.json()` (`JSON.parse`): null,
booleans, numbers (restricted to integers, which is all the claims touch),
strings, arrays, and objects.  Object field lists are the post-parse form,
in which keys are unique. -/
inductive Json
| jnull
| jbool (b : Bool)
| jnum (n : Int)
| jstr (s : String)
| jarr (items : List Json)
| jobj (fields : List (String × Json))
deriving Repr

/-- JavaScript truthiness of a JSON value: `null`, `false`, `0` and `""`
are falsy; every other value (including every array and object) is truthy. -/
def truthy : Json → Bool
| .jnull => false
| .jbool b => b
| .jnum n => n != 0
| .jstr s => s != ""
| .jarr _ => true
| .jobj _ => true

/-- First binding of a key in an object field list (keys are unique after
`JSON.parse`, so first = only). -/
def lookupField (key : String) : List (String × Json) → Option Json
| [] => none
| (k, v) :: rest => if k = key then some v else lookupField key rest

/-- The `body?.detail`-style property access: yields the field value on an
object and `undefined` (here `none`) on every non-object value. -/
def jsGetField (body : Json) (key : String) : Option Json :=
  match body with
  | .jobj fields => lookupField key fields
  | _ => none

mutual
/-- JavaScript `String(v)` on a JSON value: `"null"`, `"true"`/`"false"`,
decimal digits for numbers, the string itself, `"[object Object]"` for
objects, and for arrays the comma join of the element strings with null
elements rendered as `""`. -/
def jsToString : Json → String
| .jnull => "null"
| .jbool b => cond b "true" "false"
| .jnum n => toString n
| .jstr s => s
| .jobj _ => "[object Object]"
| .jarr items => String.intercalate "," (jsToStringList items)

/-- Element strings for the array case of `jsToString` (JS `Array.join`
renders a null element as the empty string). -/
def jsToStringList : List Json → List String
| [] => []
| .jnull :: rest => "" :: jsToStringList rest
| .jbool b :: rest => jsToString (.jbool b) :: jsToStringList rest
| .jnum n :: rest => jsToString (.jnum n) :: jsToStringList rest
| .jstr s :: rest => jsToString (.jstr s) :: jsToStringList rest
| .jobj f :: rest => jsToString (.jobj f) :: jsToStringList rest
| .jarr l :: rest => jsToString (.jarr l) :: jsToStringList rest
end

/-- One element of the `detail` array inside
`body.detail.map((item: { msg?: string }) => item.msg ?? '入力エラー')`
(`src/frontend/src/services/projects.ts` line 111).  Accessing `.msg` on a
null element throws a TypeError (modelled as `Except.error ()`); on any
other non-object it yields `undefined`, so the nullish-coalescing default
applies; on an object a missing or null `msg` also takes the default, and
any other `msg` value is later string-coerced by `Array.join`. -/
def detailItemMsg : Json → Except Unit String
| .jnull => .error ()
| .jobj fields =>
    match lookupField "msg" fields with
    | none => .ok "入力エラー"
    | some .jnull => .ok "入力エラー"
    | some m => .ok (jsToString m)
| _ => .ok "入力エラー"

/-- The `map` over the `detail` array: left-to-right, propagating the first
thrown TypeError. -/
def mapDetailMsgs : List Json → Except Unit (List String)
| [] => .ok []
| item :: rest =>
    match detailItemMsg item with
    | .error e => .error e
    | .ok s =>
        match mapDetailMsgs rest with
        | .error e => .error e
        | .ok ss => .ok (s :: ss)

/-- Function `safeParseError` from `src/frontend/src/services/projects.ts` lines
106-118, as a function of the parse outcome of `response.json()` (`none`
when the body is not JSON, so the `catch` arm runs) and of
`response.status`.  The whole `if (body?.detail) ...` block sits inside the
`try`, so a TypeError thrown while mapping the `detail` array is also
caught and falls through to the status-code message. -/
def safeParseError (parsed : Option Json) (status : Nat) : String :=
  let fallback := "APIエラー: " ++ toString status
  match parsed with
  | none => fallback
  | some body =>
      match jsGetField body "detail" with
      | none => fallback
      | some d =>
          if truthy d then
            match d with
            | .jarr items =>
                match mapDetailMsgs items with
                | .error _ => fallback
                | .ok msgs => String.intercalate " / " msgs
            | _ => jsToString d
          else fallback

/-- The message contributed by one `detail` element as the spec describes
it: the element's `msg` value, with `入力エラー` substituted when `msg` is
missing. -/
def msgOrDefault (item : Json) : String :=
  match detailItemMsg item with
  | .error _ => "入力エラー"
  | .ok s => s

/-- The behaviour claim C10 ascribes to `safeParseError`, written from the
claim text: if the body parses as JSON with an array-valued `detail`, join
the elements' `msg` values (defaulting a missing `msg` to `入力エラー`)
with " / "; if `detail` is present and not an array, the string form of
`detail`; otherwise the status-code message.  (No truthiness test, and no
TypeError on null array elements.) -/
def safeParseErrorClaimed (parsed : Option Json) (status : Nat) : String :=
  match parsed with
  | none => "APIエラー: " ++ toString status
  | some body =>
      match jsGetField body "detail" with
      | none => "APIエラー: " ++ toString status
      | some (.jarr items) => String.intercalate " / " (items.map msgOrDefault)
      | some d => jsToString d

/-- Whether a `detail` array contains a null element (the inputs on which
the `map` callback throws). -/
def hasNullElem : List Json → Bool
| [] => false
| .jnull :: _ => true
| _ :: rest => hasNullElem rest

/-- Claim C10 amended to match the code: the `detail` field must in
addition be truthy to be used, and an array containing a null element makes
the `map` callback throw, which the surrounding `try` turns into the
status-code message. -/
def safeParseErrorAmended (parsed : Option Json) (status : Nat) : String :=
  match parsed with
  | none => "APIエラー: " ++ toString status
  | some body =>
      match jsGetField body "detail" with
      | none => "APIエラー: " ++ toString status
      | some (.jarr items) =>
          if hasNullElem items then "APIエラー: " ++ toString status
          else String.intercalate " / " (items.map msgOrDefault)
      | some d =>
          if truthy d then jsToString d
          else "APIエラー: " ++ toString status

/-- The five raw sub-signals of a Topic, as exact rationals (the repository
treats them as pre-normalized real-valued signals). -/
structure Signals where
  search_volume : ℚ
  recency : ℚ
  engagement : ℚ
  relevance : ℚ
  competition : ℚ
deriving DecidableEq, Repr

/-- The trend-score formula exactly as the repository records it
(`src/frontend/src/types/project.ts` lines 431-437):
`trend_score = search_volume*0.3 + recency*0.25 + engagement*0.25 +
relevance*0.1 + competition*0.1`.  Note the last term is `competition*0.1`,
not `(1 - competition)*0.1`. -/
def trend_score (s : Signals) : ℚ :=
  s.search_volume * (3 / 10) + s.recency * (25 / 100) + s.engagement * (25 / 100) +
    s.relevance * (1 / 10) + s.competition * (1 / 10)

/-- The formula claim C1 states (spec section 4.1):
`score = 0.30*search_volume + 0.25*recency + 0.25*engagement +
0.10*relevance + 0.10*(1 - competition)`. -/
def specTrendScore (s : Signals) : ℚ :=
  (30 / 100) * s.search_volume + (25 / 100) * s.recency + (25 / 100) * s.engagement +
    (10 / 100) * s.relevance + (10 / 100) * (1 - s.competition)

/-- Membership of a signal in the normalized range `[0,1]`, decidably. -/
def inUnitInterval (x : ℚ) : Bool :=
  decide (0 ≤ x) && decide (x ≤ 1)

/-- All five sub-signals pre-normalized to `[0,1]`. -/
def validSignals (s : Signals) : Bool :=
  inUnitInterval s.search_volume && inUnitInterval s.recency &&
    inUnitInterval s.engagement && inUnitInterval s.relevance &&
    inUnitInterval s.competition

/-- Modelled from the spec: the error taxonomy entry `InvalidSignalRange`
of section 7 (the scorer implementation `src/analyzers/trend_analyzer.py`
is not in the repository tree). -/
inductive ScoreError
| InvalidSignalRange
deriving DecidableEq, Repr

/-- Modelled from the spec: TrendScorer's contract (section 4.1) — the
scorer fails with `InvalidSignalRange` if any input falls outside `[0,1]`,
and otherwise returns the trend score (the scorer implementation is not in
the repository tree; the formula itself is the repository's). -/
def scoreTopic (s : Signals) : Except ScoreError ℚ :=
  if validSignals s then .ok (trend_score s) else .error .InvalidSignalRange

/-- A candidate Topic (spec section 3): identifier, keywords, raw signal
inputs, category tag. -/
structure Topic where
  id : Nat
  keywords : List String
  signals : Signals
  category : String

/-- A Job record as far as job creation is concerned: identifier, source
Topic, computed score. -/
structure JobRecord where
  id : Nat
  topic : Topic
  score : ℚ

/-- The orchestrator's job store. -/
structure OrchState where
  jobs : List JobRecord
  nextId : Nat

/-- Modelled from the spec: `SubmitJob` (sections 6 and 7) — scoring errors
prevent Job creation entirely and are surfaced to the caller immediately
(the orchestrator implementation is not in the repository tree). -/
def submitJob (st : OrchState) (t : Topic) : OrchState × Except ScoreError Nat :=
  match scoreTopic t.signals with
  | .error e => (st, .error e)
  | .ok sc => ({ jobs := st.jobs ++ [⟨st.nextId, t, sc⟩], nextId := st.nextId + 1 }, .ok st.nextId)

/-- Word-level splitting of a character list on spaces, accumulating the
current word in reverse. -/
def splitWordsAux : List Char → List Char → List (List Char)
| [], acc => [acc.reverse]
| c :: rest, acc =>
    if c = ' ' then acc.reverse :: splitWordsAux rest []
    else splitWordsAux rest (c :: acc)

/-- Modelled from the spec: DuplicateDetector tokenization (section 4.2) —
word-level splitting, case normalization, stripping of a configurable
stop-word set, and de-duplication into a token set (the detector
implementation `src/quality/checker.py` is not in the repository tree; the
repository's test report only records the Jaccard/0.6 design). -/
def tokenize (stop : List String) (title : String) : List String :=
  (((splitWordsAux title.data []).map
      (fun w => String.mk (w.map Char.toLower))).filter
      (fun w => !(w == "") && !(stop.contains w))).dedup

/-- Modelled from the spec: Jaccard similarity of two token sets (glossary:
intersection size over union size), with the degenerate `0/0` case defined
as `0` (section 4.2 edge case). -/
def jaccard (a b : List String) : ℚ :=
  if (a.union b).length = 0 then 0
  else ((a.inter b).length : ℚ) / ((a.union b).length : ℚ)

/-- Maximum-similarity selection over scored history entries: returns the
largest similarity and the matched title, preferring the earliest entry on
ties, and `(0, none)` on an empty window. -/
def bestMatch : List (ℚ × String) → ℚ × Option String
| [] => (0, none)
| (sim, t) :: rest =>
    if (bestMatch rest).1 > sim then bestMatch rest else (sim, some t)

/-- DuplicateDetector's result: the maximum similarity, the matched prior
title, and the rejection verdict. -/
structure DupResult where
  maxSim : ℚ
  matched : Option String
  rejected : Bool

/-- The pairwise similarities of a candidate against the history window. -/
def simsOf (stop : List String) (candidate : String) (history : List String) :
    List (ℚ × String) :=
  history.map (fun h => (jaccard (tokenize stop candidate) (tokenize stop h), h))

/-- Modelled from the spec: DuplicateDetector (section 4.2) — pairwise
Jaccard similarity over token sets against a bounded window of recent
titles, returning the maximum similarity plus the matched prior title and
rejecting when the maximum reaches the configurable threshold (0.6 by
default). -/
def detectDuplicate (stop : List String) (threshold : ℚ)
    (candidate : String) (history : List String) : DupResult :=
  { maxSim := (bestMatch (simsOf stop candidate history)).1
    matched := (bestMatch (simsOf stop candidate history)).2
    rejected := decide (threshold ≤ (bestMatch (simsOf stop candidate history)).1) }

/-- Whether `pre` is a prefix of `l`, character by character. -/
def charsPrefix : List Char → List Char → Bool
| [], _ => true
| _ :: _, [] => false
| a :: as, b :: bs => a == b && charsPrefix as bs

/-- Whether `needle` occurs as a contiguous sublist of `hay`. -/
def containsSub (hay needle : List Char) : Bool :=
  charsPrefix needle hay ||
    (match hay with
     | [] => false
     | _ :: t => containsSub t needle)

/-- Case-insensitive exact substring test of a forbidden term against the
script text (both sides lower-cased character-wise). -/
def containsTermCI (script term : String) : Bool :=
  containsSub (script.data.map Char.toLower) (term.data.map Char.toLower)

/-- Modelled from the spec: QualityGate configuration (section 4.3) —
forbidden-term list, inclusive duration range, duplicate threshold and
stop-word set (the gate implementation `src/quality/checker.py` is not in
the repository tree). -/
structure GateConfig where
  forbidden : List String
  minDuration : Nat
  maxDuration : Nat
  dupThreshold : ℚ
  stopWords : List String

/-- An assembled Job artifact bundle as QualityGate sees it: script text,
title, rendered duration in seconds, and the recent-title window. -/
structure ArtifactBundle where
  script : String
  title : String
  durationSec : Nat
  recentTitles : List String

/-- QualityReport (spec section 3): pass/fail, ordered violated-rule
reasons, and numeric sub-scores for duration fit, content safety, title
quality and duplicate similarity. -/
structure QualityReport where
  pass : Bool
  violations : List String
  safetyScore : ℚ
  durationFit : ℚ
  titleQuality : ℚ
  dupSimilarity : ℚ

/-- The forbidden terms that occur in the script (case-insensitive). -/
def safetyViolations (cfg : GateConfig) (script : String) : List String :=
  cfg.forbidden.filter (fun t => containsTermCI script t)

/-- The inclusive duration-range rule: passes iff `lo ≤ d ≤ hi`. -/
def durationRuleOk (lo hi d : Nat) : Bool :=
  decide (lo ≤ d) && decide (d ≤ hi)

/-- Modelled from the spec: the soft title-quality heuristic (section
4.3) — a 0-1 score from the presence of a number, the presence of
bracketed emphasis markers, and a length within an ideal character band.
Soft only: it never blocks. -/
def titleScore (title : String) : ℚ :=
  (if title.data.any Char.isDigit then 3 / 10 else 0) +
    (if title.data.any (fun c => c == '【' || c == '】' || c == '[' || c == ']')
      then 3 / 10 else 0) +
    (if 10 ≤ title.length ∧ title.length ≤ 40 then 2 / 5 else 0)

/-- Modelled from the spec: QualityGate (section 4.3) — content safety,
duration fit and duplicate similarity are hard rules whose violation sets
`pass = false` and appends a reason; title quality is a reported soft
score. -/
def qualityGate (cfg : GateConfig) (a : ArtifactBundle) : QualityReport :=
  { pass := (safetyViolations cfg a.script).isEmpty &&
      durationRuleOk cfg.minDuration cfg.maxDuration a.durationSec &&
      !(detectDuplicate cfg.stopWords cfg.dupThreshold a.title a.recentTitles).rejected
    violations :=
      ((safetyViolations cfg a.script).map
        (fun t => "content-safety: forbidden term " ++ t)) ++
      (if durationRuleOk cfg.minDuration cfg.maxDuration a.durationSec then []
       else ["duration out of range"]) ++
      (if (detectDuplicate cfg.stopWords cfg.dupThreshold a.title a.recentTitles).rejected
       then ["duplicate similarity above threshold"] else [])
    safetyScore := if (safetyViolations cfg a.script).isEmpty then 1 else 0
    durationFit := if durationRuleOk cfg.minDuration cfg.maxDuration a.durationSec then 1 else 0
    titleQuality := titleScore a.title
    dupSimilarity := (detectDuplicate cfg.stopWords cfg.dupThreshold a.title a.recentTitles).maxSim }

/-- Modelled from the spec: the Job states of section 4.5 (the orchestrator
implementation is not in the repository tree). -/
inductive JobState
| Created
| Scored
| Scripting
| Voicing
| AssetGathering
| Rendering
| ThumbnailGenerating
| QualityChecking
| Approved
| Publishing
| Published
| Rejected
| Failed
deriving DecidableEq, Repr, Fintype

/-- Events driving the Job state machine: a StageRunner success, a
retryable failure (re-invoking the same stage), a StageRunner FatalError,
and a QualityGate rejection. -/
inductive StageEvent
| success
| retry
| fatal
| reject
deriving DecidableEq, Repr, Fintype

/-- The terminal states: `Published`, `Rejected`, `Failed`. -/
def isTerminal : JobState → Bool
| .Published => true
| .Rejected => true
| .Failed => true
| _ => false

/-- The success-path successor of each state (none for terminal states). -/
def advance : JobState → Option JobState
| .Created => some .Scored
| .Scored => some .Scripting
| .Scripting => some .Voicing
| .Voicing => some .AssetGathering
| .AssetGathering => some .Rendering
| .Rendering => some .ThumbnailGenerating
| .ThumbnailGenerating => some .QualityChecking
| .QualityChecking => some .Approved
| .Approved => some .Publishing
| .Publishing => some .Published
| _ => none

/-- Modelled from the spec: the transition relation of section 4.5 —
success advances along the chain, a retryable failure re-enters the same
state, a FatalError moves any non-terminal state to `Failed`, and a
quality rejection moves `QualityChecking` (only) to `Rejected`; terminal
states have no transitions. -/
def step (s : JobState) (e : StageEvent) : Option JobState :=
  if isTerminal s then none
  else
    match e with
    | .success => advance s
    | .retry => some s
    | .fatal => some .Failed
    | .reject => if s = .QualityChecking then some .Rejected else none

/-- Position of each state in stage order (terminal failure states sit
past the whole chain). -/
def stageIdx : JobState → Nat
| .Created => 0
| .Scored => 1
| .Scripting => 2
| .Voicing => 3
| .AssetGathering => 4
| .Rendering => 5
| .ThumbnailGenerating => 6
| .QualityChecking => 7
| .Approved => 8
| .Publishing => 9
| .Published => 10
| .Rejected => 11
| .Failed => 12

/-- Every Job starts in `Created`. -/
def initialJobState : JobState := .Created

/-- One collaborator invocation outcome (spec section 4.4):
`output | RetryableError | FatalError`. -/
inductive CollabResult
| ok
| retryable (err : String)
| fatal (err : String)
deriving DecidableEq, Repr

/-- One StageAttempt record (spec section 3): stage name, attempt number
and outcome with error detail. -/
structure StageAttempt where
  stage : String
  attemptNo : Nat
  outcome : CollabResult
deriving DecidableEq, Repr

/-- The overall result a stage execution reports to the orchestrator. -/
inductive StageResult
| success
| fatalError (err : String)
deriving DecidableEq, Repr

/-- Modelled from the spec: StageRunner's retry loop (section 4.4) —
invoke the collaborator at successive attempt numbers starting at `k`,
appending one StageAttempt record per invocation, stopping at the first
success or FatalError, re-invoking on retryable failures until the
remaining budget is exhausted, and then escalating to FatalError carrying
the last error (the runner implementation is not in the repository tree).
The collaborator is a function from attempt number to outcome. -/
def runStageFrom (stage : String) (collab : Nat → CollabResult) :
    Nat → Nat → List StageAttempt × StageResult
| _, 0 => ([], .fatalError "no attempts")
| k, r + 1 =>
    match collab k with
    | .ok => ([⟨stage, k, .ok⟩], .success)
    | .fatal e => ([⟨stage, k, .fatal e⟩], .fatalError e)
    | .retryable e =>
        if r = 0 then ([⟨stage, k, .retryable e⟩], .fatalError e)
        else
          (⟨stage, k, .retryable e⟩ :: (runStageFrom stage collab (k + 1) r).1,
            (runStageFrom stage collab (k + 1) r).2)

/-- A full stage execution: attempts are numbered from 1 up to the
configured retry budget. -/
def runStage (stage : String) (collab : Nat → CollabResult) (budget : Nat) :
    List StageAttempt × StageResult :=
  runStageFrom stage collab 1 budget

/-- What one stage execution produces for the Job: the next state, the
appended StageAttempt records, and the stage result. -/
structure StageOutput where
  nextState : JobState
  attempts : List StageAttempt
  result : StageResult
deriving DecidableEq, Repr

/-- Modelled from the spec: the orchestrator's handling of one stage
execution (sections 4.4-4.5) — on success the Job advances to the next
stage, on FatalError the Job becomes `Failed`. -/
def runStageInJob (s : JobState) (stage : String) (collab : Nat → CollabResult)
    (budget : Nat) : StageOutput :=
  { nextState :=
      match (runStage stage collab budget).2 with
      | .success => (advance s).getD s
      | .fatalError _ => .Failed
    attempts := (runStage stage collab budget).1
    result := (runStage stage collab budget).2 }

/-- The claim's concrete collaborator: attempts 1 and 2 fail retryably,
attempt 3 (and beyond) succeeds. -/
def collabFFS : Nat → CollabResult
| 1 => .retryable "timeout"
| 2 => .retryable "timeout"
| _ => .ok

end AutoTube

namespace AutoTube

/-- C9: `mapProjectResponse` renames `call_to_action` to `callToAction` and
`created_at` to `createdAt` and passes every other field through unchanged;
the output record consists of exactly these twelve fields, so nothing is
dropped or altered beyond the renaming. -/
theorem C9_mapProjectResponse_renames_only (data : ProjectApiResponse) :
    (mapProjectResponse data).callToAction = data.call_to_action ∧
    (mapProjectResponse data).createdAt = data.created_at ∧
    (mapProjectResponse data).id = data.id ∧
    (mapProjectResponse data).title = data.title ∧
    (mapProjectResponse data).location = data.location ∧
    (mapProjectResponse data).highlight = data.highlight ∧
    (mapProjectResponse data).audience = data.audience ∧
    (mapProjectResponse data).duration = data.duration ∧
    (mapProjectResponse data).tone = data.tone ∧
    (mapProjectResponse data).summary = data.summary ∧
    (mapProjectResponse data).sections = data.sections ∧
    (mapProjectResponse data).scenes = data.scenes := by
  refine ⟨rfl, rfl, rfl, rfl, rfl, rfl, rfl, rfl, rfl, rfl, rfl, rfl⟩

/-- Accessing `.msg` on a non-null `detail` element does not throw and
yields exactly the spec's defaulted message. -/
theorem detailItemMsg_isOk (item : Json) (h : item ≠ Json.jnull) :
    detailItemMsg item = Except.ok (msgOrDefault item) := by
  cases item with
  | jnull => exact absurd rfl h
  | jbool b => rfl
  | jnum n => rfl
  | jstr s => rfl
  | jarr l => rfl
  | jobj fields =>
      rcases hl : lookupField "msg" fields with _ | v
      · simp [detailItemMsg, msgOrDefault, hl]
      · cases v <;> simp [detailItemMsg, msgOrDefault, hl]

/-- A `detail` array with a null element makes the `map` callback throw. -/
theorem mapDetailMsgs_err (items : List Json) (h : hasNullElem items = true) :
    mapDetailMsgs items = Except.error () := by
  induction items with
  | nil => simp [hasNullElem] at h
  | cons hd tl ih =>
      cases hd with
      | jnull => rfl
      | jbool b => simp [hasNullElem] at h; simp [mapDetailMsgs, detailItemMsg, ih h]
      | jnum n => simp [hasNullElem] at h; simp [mapDetailMsgs, detailItemMsg, ih h]
      | jstr s => simp [hasNullElem] at h; simp [mapDetailMsgs, detailItemMsg, ih h]
      | jarr l => simp [hasNullElem] at h; simp [mapDetailMsgs, detailItemMsg, ih h]
      | jobj fields =>
          simp [hasNullElem] at h
          have := detailItemMsg_isOk (.jobj fields) (by simp)
          simp [mapDetailMsgs, this, ih h]

/-- A `detail` array without null elements maps cleanly to the defaulted
messages. -/
theorem mapDetailMsgs_ok (items : List Json) (h : hasNullElem items = false) :
    mapDetailMsgs items = Except.ok (items.map msgOrDefault) := by
  induction items with
  | nil => rfl
  | cons hd tl ih =>
      cases hd with
      | jnull => simp [hasNullElem] at h
      | jbool b => simp [hasNullElem] at h; simp [mapDetailMsgs, detailItemMsg, msgOrDefault, ih h]
      | jnum n => simp [hasNullElem] at h; simp [mapDetailMsgs, detailItemMsg, msgOrDefault, ih h]
      | jstr s => simp [hasNullElem] at h; simp [mapDetailMsgs, detailItemMsg, msgOrDefault, ih h]
      | jarr l => simp [hasNullElem] at h; simp [mapDetailMsgs, detailItemMsg, msgOrDefault, ih h]
      | jobj fields =>
          simp [hasNullElem] at h
          have hm := detailItemMsg_isOk (.jobj fields) (by simp)
          simp [mapDetailMsgs, hm, ih h]

/-- C10 counterexample: the claim reads `safeParseError` as returning the
string form of any present non-array `detail` and a joined message for any
array `detail`, but the code tests JavaScript truthiness first and lets a
null array element throw inside the `try`: on `detail: ""` and on
`detail: [null]` with status 500 the code returns the status-code message
while the claim predicts `""` and `入力エラー` respectively. -/
theorem C10_counterexample :
    safeParseError (some (.jobj [("detail", .jstr "")])) 500 = "APIエラー: 500" ∧
    safeParseErrorClaimed (some (.jobj [("detail", .jstr "")])) 500 = "" ∧
    safeParseError (some (.jobj [("detail", .jarr [.jnull])])) 500 = "APIエラー: 500" ∧
    safeParseErrorClaimed (some (.jobj [("detail", .jarr [.jnull])])) 500 = "入力エラー" ∧
    ("" : String) ≠ "APIエラー: 500" ∧ ("入力エラー" : String) ≠ "APIエラー: 500" := by
  refine ⟨rfl, rfl, rfl, rfl, by decide, by decide⟩

/-- C10 amended: `safeParseError` never throws and returns: the joined
defaulted `msg` values when `detail` parses as an array without null
elements; the string form of `detail` when `detail` is present, truthy and
not an array; and the status-code message `APIエラー: <status>` otherwise
(body not JSON, `detail` absent or falsy, or a null array element making
the `map` throw inside the `try`). -/
theorem C10_safeParseError_spec (parsed : Option Json) (status : Nat) :
    safeParseError parsed status = safeParseErrorAmended parsed status := by
  cases parsed with
  | none => rfl
  | some body =>
      simp only [safeParseError, safeParseErrorAmended]
      rcases hd : jsGetField body "detail" with _ | d
      · rfl
      · cases d with
        | jnull => rfl
        | jbool b => cases b <;> rfl
        | jnum n =>
            by_cases hn : n = 0
            · subst hn; rfl
            · simp [truthy, hn]
        | jstr s =>
            by_cases hs : s = ""
            · subst hs; rfl
            · simp [truthy, hs, jsToString]
        | jobj fields => rfl
        | jarr items =>
            rcases hn : hasNullElem items with _ | _
            · simp [truthy, mapDetailMsgs_ok items hn, hn]
            · simp [truthy, mapDetailMsgs_err items hn, hn]

/-- Predicate `validSignals` holds exactly when every sub-signal lies in `[0,1]`. -/
theorem validSignals_iff (s : Signals) :
    validSignals s = true ↔
      (0 ≤ s.search_volume ∧ s.search_volume ≤ 1) ∧
      (0 ≤ s.recency ∧ s.recency ≤ 1) ∧
      (0 ≤ s.engagement ∧ s.engagement ≤ 1) ∧
      (0 ≤ s.relevance ∧ s.relevance ≤ 1) ∧
      (0 ≤ s.competition ∧ s.competition ≤ 1) := by
  simp [validSignals, inUnitInterval, Bool.and_eq_true, decide_eq_true_eq]
  tauto

/-- C1 counterexample: at the valid signal vector
`(search_volume, recency, engagement, relevance, competition) = (0,0,0,0,1)`
the repository's formula yields `0.1` while the claim's formula (with the
`(1 - competition)` term) yields `0`. -/
theorem C1_counterexample :
    validSignals ⟨0, 0, 0, 0, 1⟩ = true ∧
    trend_score ⟨0, 0, 0, 0, 1⟩ = 1 / 10 ∧
    specTrendScore ⟨0, 0, 0, 0, 1⟩ = 0 ∧
    trend_score ⟨0, 0, 0, 0, 1⟩ ≠ specTrendScore ⟨0, 0, 0, 0, 1⟩ := by
  refine ⟨by decide, by norm_num [trend_score], by norm_num [specTrendScore],
    by norm_num [trend_score, specTrendScore]⟩

/-- C1 amended: for sub-signals in `[0,1]` the repository's trend score is
exactly `0.30*search_volume + 0.25*recency + 0.25*engagement +
0.10*relevance + 0.10*competition`, it lies in `[0,1]`, and recomputing on
identical inputs yields the identical result. -/
theorem C1_trend_score_props (s : Signals)
    (hsv : 0 ≤ s.search_volume ∧ s.search_volume ≤ 1)
    (hre : 0 ≤ s.recency ∧ s.recency ≤ 1)
    (hen : 0 ≤ s.engagement ∧ s.engagement ≤ 1)
    (hrl : 0 ≤ s.relevance ∧ s.relevance ≤ 1)
    (hco : 0 ≤ s.competition ∧ s.competition ≤ 1) :
    trend_score s = (30 / 100) * s.search_volume + (25 / 100) * s.recency +
      (25 / 100) * s.engagement + (10 / 100) * s.relevance +
      (10 / 100) * s.competition ∧
    0 ≤ trend_score s ∧ trend_score s ≤ 1 ∧
    ∀ s' : Signals, s' = s → trend_score s' = trend_score s := by
  obtain ⟨h1, h2⟩ := hsv
  obtain ⟨h3, h4⟩ := hre
  obtain ⟨h5, h6⟩ := hen
  obtain ⟨h7, h8⟩ := hrl
  obtain ⟨h9, h10⟩ := hco
  refine ⟨by unfold trend_score; ring, ?_, ?_, fun s' h => by rw [h]⟩
  · unfold trend_score; linarith
  · unfold trend_score; linarith

/-- Witness for C1's amended theorem at the all-halves signal vector. -/
theorem C1_witness :
    0 ≤ trend_score ⟨1/2, 1/2, 1/2, 1/2, 1/2⟩ ∧
    trend_score ⟨1/2, 1/2, 1/2, 1/2, 1/2⟩ ≤ 1 := by
  have h := C1_trend_score_props ⟨1/2, 1/2, 1/2, 1/2, 1/2⟩
    (by norm_num) (by norm_num) (by norm_num) (by norm_num) (by norm_num)
  exact ⟨h.2.1, h.2.2.1⟩

/-- C7: scoring fails with `InvalidSignalRange` exactly when not every
sub-signal lies in `[0,1]`; `SubmitJob` surfaces that error to its caller
exactly in the same case, and on that error the job store is left
unchanged (the Topic is rejected before any Job is created). -/
theorem C7_invalid_signal_range (st : OrchState) (t : Topic) :
    (scoreTopic t.signals = .error .InvalidSignalRange ↔
      ¬ ((0 ≤ t.signals.search_volume ∧ t.signals.search_volume ≤ 1) ∧
         (0 ≤ t.signals.recency ∧ t.signals.recency ≤ 1) ∧
         (0 ≤ t.signals.engagement ∧ t.signals.engagement ≤ 1) ∧
         (0 ≤ t.signals.relevance ∧ t.signals.relevance ≤ 1) ∧
         (0 ≤ t.signals.competition ∧ t.signals.competition ≤ 1))) ∧
    ((submitJob st t).2 = .error .InvalidSignalRange ↔
      scoreTopic t.signals = .error .InvalidSignalRange) ∧
    ((submitJob st t).2 = .error .InvalidSignalRange → (submitJob st t).1 = st) := by
  refine ⟨?_, ?_, ?_⟩
  · rw [← validSignals_iff]
    unfold scoreTopic
    rcases hv : validSignals t.signals with _ | _ <;> simp [hv]
  · unfold submitJob
    rcases hs : scoreTopic t.signals with e | sc
    · cases e; simp [hs]
    · simp [hs]
  · intro h
    unfold submitJob at h ⊢
    rcases hs : scoreTopic t.signals with e | sc
    · simp
    · rw [hs] at h; simp at h

/-- Witness for C7 at a Topic whose `search_volume` is `2`. -/
theorem C7_witness :
    (submitJob ⟨[], 0⟩ ⟨0, [], ⟨2, 0, 0, 0, 0⟩, "technology"⟩).2 =
      Except.error ScoreError.InvalidSignalRange ∧
    (submitJob ⟨[], 0⟩ ⟨0, [], ⟨2, 0, 0, 0, 0⟩, "technology"⟩).1 = ⟨[], 0⟩ := by
  have h := C7_invalid_signal_range ⟨[], 0⟩ ⟨0, [], ⟨2, 0, 0, 0, 0⟩, "technology"⟩
  have herr : (submitJob ⟨[], 0⟩ ⟨0, [], ⟨2, 0, 0, 0, 0⟩, "technology"⟩).2 =
      Except.error ScoreError.InvalidSignalRange := by
    rw [h.2.1, h.1]
    intro hc
    exact absurd hc.1.2 (by norm_num)
  exact ⟨herr, h.2.2 herr⟩

/-- Jaccard similarity is never negative. -/
theorem jaccard_nonneg (a b : List String) : 0 ≤ jaccard a b := by
  unfold jaccard
  split
  · exact le_refl 0
  · positivity

/-- An empty candidate token set has similarity `0` to every token set
(both the `0/0` branch and the `0/n` branch). -/
theorem jaccard_nil_left (b : List String) : jaccard [] b = 0 := by
  unfold jaccard
  split <;> simp [List.inter]

/-- Evaluation rule for `jaccard` from intersection and union sizes. -/
theorem jaccard_eval (a b : List String) (i u : Nat) (hi : (a.inter b).length = i)
    (hu : (a.union b).length = u) (hu0 : u ≠ 0) : jaccard a b = (i : ℚ) / u := by
  unfold jaccard
  rw [hi, hu, if_neg hu0]

/-- Unfolding equation for `bestMatch` on a non-empty list. -/
theorem bestMatch_cons (sim : ℚ) (t : String) (rest : List (ℚ × String)) :
    bestMatch ((sim, t) :: rest) =
      if (bestMatch rest).1 > sim then bestMatch rest else (sim, some t) := rfl

/-- Selection `bestMatch` dominates every listed similarity. -/
theorem bestMatch_ge (l : List (ℚ × String)) (p : ℚ × String) (hp : p ∈ l) :
    p.1 ≤ (bestMatch l).1 := by
  induction l with
  | nil => cases hp
  | cons hd tl ih =>
      obtain ⟨sim, t⟩ := hd
      by_cases hgt : (bestMatch tl).1 > sim
      · rcases List.mem_cons.mp hp with h | h
        · subst h
          rw [bestMatch_cons, if_pos hgt]
          exact le_of_lt hgt
        · rw [bestMatch_cons, if_pos hgt]
          exact ih h
      · rcases List.mem_cons.mp hp with h | h
        · subst h
          rw [bestMatch_cons, if_neg hgt]
        · rw [bestMatch_cons, if_neg hgt]
          exact le_trans (ih h) (le_of_not_lt hgt)

/-- Selection `bestMatch` of an all-zero similarity list is `0`. -/
theorem bestMatch_zero (l : List (ℚ × String)) (h : ∀ p ∈ l, p.1 = 0) :
    (bestMatch l).1 = 0 := by
  induction l with
  | nil => rfl
  | cons hd tl ih =>
      obtain ⟨sim, t⟩ := hd
      have hsim : sim = 0 := h (sim, t) (List.mem_cons_self _ _)
      have htl : (bestMatch tl).1 = 0 := ih (fun p hp => h p (List.mem_cons_of_mem _ hp))
      simp only [bestMatch]
      split
      · exact htl
      · exact hsim

/-- On a non-empty list of non-negative similarities, `bestMatch` returns
the similarity and title of an actual entry. -/
theorem bestMatch_mem (l : List (ℚ × String)) (hne : l ≠ [])
    (hnn : ∀ p ∈ l, 0 ≤ p.1) :
    ∃ p ∈ l, (bestMatch l).1 = p.1 ∧ (bestMatch l).2 = some p.2 := by
  induction l with
  | nil => exact absurd rfl hne
  | cons hd tl ih =>
      obtain ⟨sim, t⟩ := hd
      by_cases hgt : (bestMatch tl).1 > sim
      · cases tl with
        | nil =>
            simp only [bestMatch] at hgt
            exact absurd hgt (not_lt.mpr (hnn (sim, t) (List.mem_cons_self _ _)))
        | cons hd2 tl2 =>
            obtain ⟨p, hpmem, hp1, hp2⟩ :=
              ih (by simp) (fun q hq => hnn q (List.mem_cons_of_mem _ hq))
            refine ⟨p, List.mem_cons_of_mem _ hpmem, ?_, ?_⟩
            · rw [bestMatch_cons, if_pos hgt]
              exact hp1
            · rw [bestMatch_cons, if_pos hgt]
              exact hp2
      · refine ⟨(sim, t), List.mem_cons_self _ _, ?_, ?_⟩
        · rw [bestMatch_cons, if_neg hgt]
        · rw [bestMatch_cons, if_neg hgt]

/-- The reported maximum dominates each pairwise similarity. -/
theorem detect_maxSim_ge (stop : List String) (thr : ℚ) (cand : String)
    (hist : List String) (t : String) (ht : t ∈ hist) :
    jaccard (tokenize stop cand) (tokenize stop t) ≤
      (detectDuplicate stop thr cand hist).maxSim := by
  unfold detectDuplicate
  exact bestMatch_ge _ _ (List.mem_map_of_mem _ ht)

/-- On a non-empty window the detector returns a matched prior title whose
similarity equals the reported maximum. -/
theorem detect_matched (stop : List String) (thr : ℚ) (cand : String)
    (hist : List String) (hne : hist ≠ []) :
    ∃ t ∈ hist, (detectDuplicate stop thr cand hist).matched = some t ∧
      jaccard (tokenize stop cand) (tokenize stop t) =
        (detectDuplicate stop thr cand hist).maxSim := by
  unfold detectDuplicate
  obtain ⟨p, hpmem, hp1, hp2⟩ := bestMatch_mem (simsOf stop cand hist)
    (by simpa [simsOf] using hne)
    (by rintro q hq
        obtain ⟨t, ht, rfl⟩ := List.mem_map.mp hq
        exact jaccard_nonneg _ _)
  obtain ⟨t, ht, rfl⟩ := List.mem_map.mp hpmem
  exact ⟨t, ht, hp2, hp1.symm⟩

/-- The rejection verdict is exactly the comparison of the maximum
similarity against the threshold. -/
theorem detect_rejected_iff (stop : List String) (thr : ℚ) (cand : String)
    (hist : List String) :
    (detectDuplicate stop thr cand hist).rejected = true ↔
      thr ≤ (detectDuplicate stop thr cand hist).maxSim := by
  unfold detectDuplicate
  simp

/-- Token set of the claim's first candidate title. -/
theorem tokenize_title_2024 :
    tokenize [] "AI Technology News 2024" = ["ai", "technology", "news", "2024"] := by decide

/-- Token set of the first history title. -/
theorem tokenize_title_2023 :
    tokenize [] "AI Technology News 2023" = ["ai", "technology", "news", "2023"] := by decide

/-- Token set of the second history title. -/
theorem tokenize_title_latest :
    tokenize [] "Latest AI Technology News" = ["latest", "ai", "technology", "news"] := by decide

/-- Token set of the unrelated candidate title. -/
theorem tokenize_title_unrelated :
    tokenize [] "Completely Unrelated Topic" = ["completely", "unrelated", "topic"] := by decide

/-- Similarity of the 2024 candidate to the 2023 history title is 3/5. -/
theorem jaccard_2024_2023 :
    jaccard (tokenize [] "AI Technology News 2024") (tokenize [] "AI Technology News 2023") = 3/5 := by
  rw [tokenize_title_2024, tokenize_title_2023,
    jaccard_eval _ _ 3 5 (by decide) (by decide) (by decide)]
  norm_num

/-- Similarity of the 2024 candidate to the "Latest" history title is 3/5. -/
theorem jaccard_2024_latest :
    jaccard (tokenize [] "AI Technology News 2024") (tokenize [] "Latest AI Technology News") = 3/5 := by
  rw [tokenize_title_2024, tokenize_title_latest,
    jaccard_eval _ _ 3 5 (by decide) (by decide) (by decide)]
  norm_num

/-- Similarity of the unrelated candidate to the 2023 history title is 0. -/
theorem jaccard_unrelated_2023 :
    jaccard (tokenize [] "Completely Unrelated Topic") (tokenize [] "AI Technology News 2023") = 0 := by
  rw [tokenize_title_unrelated, tokenize_title_2023,
    jaccard_eval _ _ 0 7 (by decide) (by decide) (by decide)]
  norm_num

/-- Similarity of the unrelated candidate to the "Latest" history title is 0. -/
theorem jaccard_unrelated_latest :
    jaccard (tokenize [] "Completely Unrelated Topic") (tokenize [] "Latest AI Technology News") = 0 := by
  rw [tokenize_title_unrelated, tokenize_title_latest,
    jaccard_eval _ _ 0 7 (by decide) (by decide) (by decide)]
  norm_num

/-- The 2024 candidate against the claim's history: maximum similarity 3/5
and rejection. -/
theorem detect_concrete_dup :
    (detectDuplicate [] (3/5) "AI Technology News 2024"
      ["AI Technology News 2023", "Latest AI Technology News"]).maxSim = 3/5 ∧
    (detectDuplicate [] (3/5) "AI Technology News 2024"
      ["AI Technology News 2023", "Latest AI Technology News"]).rejected = true := by
  have hsims : simsOf [] "AI Technology News 2024"
      ["AI Technology News 2023", "Latest AI Technology News"] =
      [(3/5, "AI Technology News 2023"), (3/5, "Latest AI Technology News")] := by
    simp [simsOf, jaccard_2024_2023, jaccard_2024_latest]
  have hbm : bestMatch [((3:ℚ)/5, "AI Technology News 2023"), (3/5, "Latest AI Technology News")]
      = (3/5, some "AI Technology News 2023") := by
    simp only [bestMatch]
    norm_num
  constructor
  · unfold detectDuplicate
    rw [hsims, hbm]
  · unfold detectDuplicate
    rw [hsims, hbm]
    simp only [decide_eq_true_eq]
    norm_num

/-- The unrelated candidate against the claim's history: maximum similarity
0 and acceptance. -/
theorem detect_concrete_nodup :
    (detectDuplicate [] (3/5) "Completely Unrelated Topic"
      ["AI Technology News 2023", "Latest AI Technology News"]).maxSim = 0 ∧
    (detectDuplicate [] (3/5) "Completely Unrelated Topic"
      ["AI Technology News 2023", "Latest AI Technology News"]).rejected = false := by
  have hsims : simsOf [] "Completely Unrelated Topic"
      ["AI Technology News 2023", "Latest AI Technology News"] =
      [((0:ℚ), "AI Technology News 2023"), (0, "Latest AI Technology News")] := by
    simp [simsOf, jaccard_unrelated_2023, jaccard_unrelated_latest]
  have hbm : bestMatch [((0:ℚ), "AI Technology News 2023"), (0, "Latest AI Technology News")]
      = (0, some "AI Technology News 2023") := by
    simp only [bestMatch]
    norm_num
  constructor
  · unfold detectDuplicate
    rw [hsims, hbm]
  · unfold detectDuplicate
    rw [hsims, hbm]
    simp only [decide_eq_false_iff_not]
    norm_num

/-- C2: DuplicateDetector returns the maximum pairwise Jaccard similarity
over the window (it dominates every pairwise similarity and, on a
non-empty window, is attained by the matched prior title it returns), the
candidate is rejected iff the maximum reaches the 0.6 threshold, and on the
claim's concrete inputs: "AI Technology News 2024" against the history
["AI Technology News 2023", "Latest AI Technology News"] has maximum
similarity 3/5 ≥ 0.6 and is rejected, while "Completely Unrelated Topic"
against the same history has maximum similarity 0 < 0.6 and is accepted. -/
theorem C2_duplicate_detector (stop : List String) (thr : ℚ) (cand : String)
    (hist : List String) :
    (∀ t ∈ hist, jaccard (tokenize stop cand) (tokenize stop t) ≤
        (detectDuplicate stop thr cand hist).maxSim) ∧
    (hist ≠ [] → ∃ t ∈ hist, (detectDuplicate stop thr cand hist).matched = some t ∧
        jaccard (tokenize stop cand) (tokenize stop t) =
          (detectDuplicate stop thr cand hist).maxSim) ∧
    ((detectDuplicate stop thr cand hist).rejected = true ↔
        thr ≤ (detectDuplicate stop thr cand hist).maxSim) ∧
    ((detectDuplicate [] (3/5) "AI Technology News 2024"
        ["AI Technology News 2023", "Latest AI Technology News"]).maxSim = 3/5 ∧
      (detectDuplicate [] (3/5) "AI Technology News 2024"
        ["AI Technology News 2023", "Latest AI Technology News"]).rejected = true) ∧
    ((detectDuplicate [] (3/5) "Completely Unrelated Topic"
        ["AI Technology News 2023", "Latest AI Technology News"]).maxSim = 0 ∧
      (0:ℚ) < 3/5 ∧
      (detectDuplicate [] (3/5) "Completely Unrelated Topic"
        ["AI Technology News 2023", "Latest AI Technology News"]).rejected = false) :=
  ⟨fun t ht => detect_maxSim_ge stop thr cand hist t ht,
   fun hne => detect_matched stop thr cand hist hne,
   detect_rejected_iff stop thr cand hist,
   detect_concrete_dup,
   ⟨detect_concrete_nodup.1, by norm_num, detect_concrete_nodup.2⟩⟩

/-- Witness for C2 on the claim's concrete duplicate scenario. -/
theorem C2_witness :
    jaccard (tokenize [] "AI Technology News 2024") (tokenize [] "AI Technology News 2023") ≤
      (detectDuplicate [] (3/5) "AI Technology News 2024"
        ["AI Technology News 2023", "Latest AI Technology News"]).maxSim ∧
    (∃ t ∈ ["AI Technology News 2023", "Latest AI Technology News"],
      (detectDuplicate [] (3/5) "AI Technology News 2024"
        ["AI Technology News 2023", "Latest AI Technology News"]).matched = some t ∧
      jaccard (tokenize [] "AI Technology News 2024") (tokenize [] t) =
        (detectDuplicate [] (3/5) "AI Technology News 2024"
          ["AI Technology News 2023", "Latest AI Technology News"]).maxSim) := by
  have h := C2_duplicate_detector [] (3/5) "AI Technology News 2024"
    ["AI Technology News 2023", "Latest AI Technology News"]
  exact ⟨h.1 _ (by simp), h.2.1 (by simp)⟩

/-- C8: a candidate whose token set is empty after stop-word removal has
similarity 0 to every history entry (the 0/0 Jaccard case is defined, not
an error), its reported maximum similarity is 0, and for any positive
threshold it is never rejected as a duplicate. -/
theorem C8_empty_token_set (stop : List String) (thr : ℚ) (cand : String)
    (hist : List String) (h : tokenize stop cand = []) :
    (∀ t ∈ hist, jaccard (tokenize stop cand) (tokenize stop t) = 0) ∧
    (detectDuplicate stop thr cand hist).maxSim = 0 ∧
    (0 < thr → (detectDuplicate stop thr cand hist).rejected = false) := by
  have hmax : (bestMatch (simsOf stop cand hist)).1 = 0 := by
    apply bestMatch_zero
    rintro p hp
    obtain ⟨t, ht, rfl⟩ := List.mem_map.mp hp
    show jaccard (tokenize stop cand) (tokenize stop t) = 0
    rw [h]
    exact jaccard_nil_left _
  refine ⟨fun t ht => by rw [h]; exact jaccard_nil_left _, ?_, ?_⟩
  · unfold detectDuplicate
    exact hmax
  · intro hthr
    unfold detectDuplicate
    rw [hmax]
    simp only [decide_eq_false_iff_not]
    exact not_le.mpr hthr

/-- Witness for C8: the candidate "the" with stop-word list ["the"]
tokenizes to the empty set and is accepted against a non-empty history at
threshold 0.6. -/
theorem C8_witness :
    jaccard (tokenize ["the"] "the") (tokenize ["the"] "AI Technology News 2023") = 0 ∧
    (detectDuplicate ["the"] (3/5) "the" ["AI Technology News 2023"]).maxSim = 0 ∧
    (detectDuplicate ["the"] (3/5) "the" ["AI Technology News 2023"]).rejected = false := by
  have h := C8_empty_token_set ["the"] (3/5) "the" ["AI Technology News 2023"] (by decide)
  exact ⟨h.1 _ (by simp), h.2.1, h.2.2 (by norm_num)⟩

/-- C3: whenever a forbidden term occurs case-insensitively in the script,
the gate reports `pass = false` and the matched term appears in the
violated-rule reasons, regardless of every other rule's outcome (the
duration rule, duplicate rule and title heuristic are universally
quantified away in `cfg` and `a`). -/
theorem C3_forbidden_term (cfg : GateConfig) (a : ArtifactBundle) (term : String)
    (hmem : term ∈ cfg.forbidden) (hsub : containsTermCI a.script term = true) :
    (qualityGate cfg a).pass = false ∧
    ("content-safety: forbidden term " ++ term) ∈ (qualityGate cfg a).violations := by
  have hviol : term ∈ safetyViolations cfg a.script :=
    List.mem_filter.mpr ⟨hmem, hsub⟩
  have hne : safetyViolations cfg a.script ≠ [] := List.ne_nil_of_mem hviol
  have hempty : (safetyViolations cfg a.script).isEmpty = false := by
    simpa [List.isEmpty_iff] using hne
  constructor
  · simp [qualityGate, hempty]
  · simp only [qualityGate, List.mem_append]
    exact Or.inl (Or.inl (List.mem_map_of_mem _ hviol))

/-- Witness for C3: the repository test report's script
"This contains 暴力 which is forbidden" against the forbidden list
["暴力"] fails the gate with the term in the reasons. -/
theorem C3_witness :
    (qualityGate ⟨["暴力"], 240, 360, 3/5, []⟩
      ⟨"This contains 暴力 which is forbidden", "t", 295, []⟩).pass = false ∧
    ("content-safety: forbidden term " ++ "暴力") ∈
      (qualityGate ⟨["暴力"], 240, 360, 3/5, []⟩
        ⟨"This contains 暴力 which is forbidden", "t", 295, []⟩).violations :=
  C3_forbidden_term ⟨["暴力"], 240, 360, 3/5, []⟩
    ⟨"This contains 暴力 which is forbidden", "t", 295, []⟩ "暴力"
    (by simp) (by decide)

/-- C4: the duration rule passes iff the duration lies in the configured
inclusive range; with range 240-360 a 295-second render passes and a
400-second render fails; and a failing duration rule is a hard fail — the
gate reports `pass = false` with reason "duration out of range". -/
theorem C4_duration_rule (lo hi d : Nat) (cfg : GateConfig) (a : ArtifactBundle) :
    (durationRuleOk lo hi d = true ↔ lo ≤ d ∧ d ≤ hi) ∧
    durationRuleOk 240 360 295 = true ∧
    durationRuleOk 240 360 400 = false ∧
    (durationRuleOk cfg.minDuration cfg.maxDuration a.durationSec = false →
      (qualityGate cfg a).pass = false ∧
      "duration out of range" ∈ (qualityGate cfg a).violations) := by
  refine ⟨by simp [durationRuleOk], by decide, by decide, fun h => ⟨?_, ?_⟩⟩
  · simp [qualityGate, h]
  · simp only [qualityGate, List.mem_append, h, if_false]
    exact Or.inl (Or.inr (List.mem_singleton_self _))

/-- Witness for C4: a 400-second render against the 240-360 range is a
hard fail with the "duration out of range" reason. -/
theorem C4_witness :
    (qualityGate ⟨[], 240, 360, 3/5, []⟩ ⟨"s", "t", 400, []⟩).pass = false ∧
    "duration out of range" ∈
      (qualityGate ⟨[], 240, 360, 3/5, []⟩ ⟨"s", "t", 400, []⟩).violations :=
  (C4_duration_rule 240 360 400 ⟨[], 240, 360, 3/5, []⟩ ⟨"s", "t", 400, []⟩).2.2.2
    (by decide)

/-- C5: in the Job state machine, a Job starts in `Created`; exactly
`Published`, `Rejected` and `Failed` are terminal (they and only they have
no outgoing transition); `Rejected` is entered only from
`QualityChecking`; `Failed` is reachable from every non-terminal stage on
a FatalError; and no transition moves backward in stage order except a
retry, which keeps the same state. -/
theorem C5_state_machine :
    initialJobState = JobState.Created ∧
    (∀ s : JobState, (∀ e : StageEvent, step s e = none) ↔
      (s = .Published ∨ s = .Rejected ∨ s = .Failed)) ∧
    (∀ (s : JobState) (e : StageEvent), step s e = some .Rejected → s = .QualityChecking) ∧
    (∀ s : JobState, isTerminal s = false → step s .fatal = some .Failed) ∧
    (∀ (s : JobState) (e : StageEvent) (s' : JobState),
      step s e = some s' → (s' = s ∧ e = .retry) ∨ stageIdx s < stageIdx s') := by
  refine ⟨rfl, by decide, by decide, by decide, by decide⟩

/-- Witness for C5: a FatalError in `Scripting` yields `Failed`, and the
`Created → Scored` transition moves forward in stage order. -/
theorem C5_witness :
    step JobState.Scripting StageEvent.fatal = some JobState.Failed ∧
    ((JobState.Scored = JobState.Created ∧ StageEvent.success = StageEvent.retry) ∨
      stageIdx JobState.Created < stageIdx JobState.Scored) :=
  ⟨C5_state_machine.2.2.2.1 JobState.Scripting (by decide),
    C5_state_machine.2.2.2.2 JobState.Created StageEvent.success JobState.Scored (by decide)⟩

/-- Unfolding equation for `runStageFrom` with remaining budget `r + 1`. -/
theorem runStageFrom_succ (stage : String) (collab : Nat → CollabResult)
    (k r : Nat) :
    runStageFrom stage collab k (r + 1) =
      match collab k with
      | .ok => ([⟨stage, k, .ok⟩], .success)
      | .fatal e => ([⟨stage, k, .fatal e⟩], .fatalError e)
      | .retryable e =>
          if r = 0 then ([⟨stage, k, .retryable e⟩], .fatalError e)
          else
            (⟨stage, k, .retryable e⟩ :: (runStageFrom stage collab (k + 1) r).1,
              (runStageFrom stage collab (k + 1) r).2) := rfl

/-- Branch equation: a successful invocation stops with one record. -/
theorem runStageFrom_of_ok {stage : String} {collab : Nat → CollabResult}
    {k : Nat} (r : Nat) (hc : collab k = .ok) :
    runStageFrom stage collab k (r + 1) = ([⟨stage, k, .ok⟩], .success) := by
  rw [runStageFrom_succ, hc]

/-- Branch equation: a fatal invocation stops with one record. -/
theorem runStageFrom_of_fatal {stage : String} {collab : Nat → CollabResult}
    {k : Nat} (r : Nat) {e : String} (hc : collab k = .fatal e) :
    runStageFrom stage collab k (r + 1) =
      ([⟨stage, k, .fatal e⟩], .fatalError e) := by
  rw [runStageFrom_succ, hc]

/-- Branch equation: a retryable failure on the last budgeted attempt
escalates to FatalError with that error. -/
theorem runStageFrom_of_retry_last {stage : String} {collab : Nat → CollabResult}
    {k : Nat} {e : String} (hc : collab k = .retryable e) :
    runStageFrom stage collab k 1 = ([⟨stage, k, .retryable e⟩], .fatalError e) := by
  rw [runStageFrom_succ, hc]
  simp

/-- Branch equation: a retryable failure with budget left records the
attempt and re-invokes the same stage at the next attempt number. -/
theorem runStageFrom_of_retry {stage : String} {collab : Nat → CollabResult}
    {k r : Nat} {e : String} (hc : collab k = .retryable e) (hr : r ≠ 0) :
    runStageFrom stage collab k (r + 1) =
      (⟨stage, k, .retryable e⟩ :: (runStageFrom stage collab (k + 1) r).1,
        (runStageFrom stage collab (k + 1) r).2) := by
  rw [runStageFrom_succ, hc]
  simp [hr]

/-- Audit trail: the `i`-th StageAttempt record is exactly the record of
invocation `k + i`, carrying the collaborator's outcome there — one record
per invocation, in order, including on success. -/
theorem runStageFrom_audit (stage : String) (collab : Nat → CollabResult) :
    ∀ (b k i : Nat), i < (runStageFrom stage collab k b).1.length →
      (runStageFrom stage collab k b).1.get? i =
        some ⟨stage, k + i, collab (k + i)⟩ := by
  intro b
  induction b with
  | zero => intro k i hi; simp [runStageFrom] at hi
  | succ r ih =>
      intro k i hi
      rcases hc : collab k with _ | e | e
      · rw [runStageFrom_of_ok r hc] at hi ⊢
        have hi0 : i = 0 := by simpa using hi
        subst hi0
        simp [hc]
      · by_cases hr : r = 0
        · subst hr
          rw [runStageFrom_of_retry_last hc] at hi ⊢
          have hi0 : i = 0 := by simpa using hi
          subst hi0
          simp [hc]
        · rw [runStageFrom_of_retry hc hr] at hi ⊢
          cases i with
          | zero => simp [hc]
          | succ j =>
              simp only [List.length_cons, Nat.succ_lt_succ_iff] at hi
              have harith : k + 1 + j = k + (j + 1) := by omega
              have hrec := ih (k + 1) j hi
              rw [harith] at hrec
              simpa using hrec
      · rw [runStageFrom_of_fatal r hc] at hi ⊢
        have hi0 : i = 0 := by simpa using hi
        subst hi0
        simp [hc]

/-- Retry exhaustion: an always-retryable collaborator consumes the whole
budget, produces one record per attempt, and ends in FatalError carrying
the last attempt's error. -/
theorem runStageFrom_exhaust (stage : String) (collab : Nat → CollabResult)
    (err : Nat → String) (h : ∀ j, collab j = .retryable (err j)) :
    ∀ (b k : Nat),
      (runStageFrom stage collab k (b + 1)).2 = .fatalError (err (k + b)) ∧
      (runStageFrom stage collab k (b + 1)).1.length = b + 1 := by
  intro b
  induction b with
  | zero =>
      intro k
      rw [runStageFrom_of_retry_last (h k)]
      simp
  | succ r ih =>
      intro k
      rw [runStageFrom_of_retry (h k) (Nat.succ_ne_zero r)]
      constructor
      · show (runStageFrom stage collab (k + 1) (r + 1)).2 = _
        rw [(ih (k + 1)).1]
        have harith : k + 1 + r = k + (r + 1) := by omega
        rw [harith]
      · show ((⟨stage, k, .retryable (err k)⟩ : StageAttempt) ::
          (runStageFrom stage collab (k + 1) (r + 1)).1).length = r + 1 + 1
        rw [List.length_cons, (ih (k + 1)).2]

/-- C6: StageRunner appends exactly one StageAttempt record per invocation
(the `i`-th record is the record of invocation `k + i` with the
collaborator's outcome there, success included); an always-retryable
collaborator consumes the whole budget and escalates to FatalError with
the last error, which turns the Job `Failed`; and the claim's scenario —
two retryable failures then a success within a budget of 3 — produces the
three-record attempt sequence ending in success, after which the Job in
`Scripting` advances to `Voicing`. -/
theorem C6_stage_runner (s : JobState) (stage : String)
    (collab : Nat → CollabResult) (err : Nat → String) (b k i c : Nat) :
    (i < (runStageFrom stage collab k b).1.length →
      (runStageFrom stage collab k b).1.get? i =
        some ⟨stage, k + i, collab (k + i)⟩) ∧
    ((∀ j, collab j = .retryable (err j)) →
      (runStage stage collab (c + 1)).2 = .fatalError (err (1 + c)) ∧
      (runStage stage collab (c + 1)).1.length = c + 1 ∧
      (runStageInJob s stage collab (c + 1)).nextState = .Failed) ∧
    runStage "Scripting" collabFFS 3 =
      ([⟨"Scripting", 1, .retryable "timeout"⟩,
        ⟨"Scripting", 2, .retryable "timeout"⟩,
        ⟨"Scripting", 3, .ok⟩], .success) ∧
    (runStageInJob .Scripting "Scripting" collabFFS 3).nextState = JobState.Voicing ∧
    (runStageInJob .Scripting "Scripting" collabFFS 3).result = .success := by
  refine ⟨runStageFrom_audit stage collab b k i, fun h => ?_, by decide, by decide, by decide⟩
  have h2 := runStageFrom_exhaust stage collab err h c 1
  refine ⟨h2.1, h2.2, ?_⟩
  simp only [runStageInJob, runStage]
  rw [h2.1]

/-- Witness for C6: with an always-failing collaborator and budget 3, the
second record is attempt 2's retryable failure, the run ends in FatalError
"boom", and the Job becomes `Failed`. -/
theorem C6_witness :
    (runStageFrom "Voicing" (fun _ => CollabResult.retryable "boom") 1 3).1.get? 1 =
      some ⟨"Voicing", 2, CollabResult.retryable "boom"⟩ ∧
    (runStage "Voicing" (fun _ => CollabResult.retryable "boom") 3).2 =
      .fatalError "boom" ∧
    (runStageInJob .Voicing "Voicing" (fun _ => CollabResult.retryable "boom") 3).nextState =
      JobState.Failed := by
  have h := C6_stage_runner .Voicing "Voicing"
    (fun _ => CollabResult.retryable "boom") (fun _ => "boom") 3 1 1 2
  have h1 := h.1 (by decide)
  have h2 := h.2.1 (fun j => rfl)
  exact ⟨by simpa using h1, h2.1, h2.2.2⟩

end AutoTube
